import Mathlib

/-
Verification of the HerasCycle password-vault core.

The repository contains three variant vault implementations:
  * `src/lib/HeraVault.ts`   — "v1.0-forensic": no auth hash, localStorage-backed,
    catch-all ACCESS_DENIED error, `unlock` returns `null` when no artifact is stored.
  * part_004 (v96.0)         — class `HeraVault`, "v96-forensic": auth hash before
    decryption, INVALID_PASSWORD vs CORRUPT_VAULT error split, whole unlock in a
    try/catch that maps every non-INVALID_PASSWORD failure to CORRUPT_VAULT.
  * part_005 (v98.1)         — class `HeraSecurity`, "v98-gold": auth hash, empty
    password rejected in lock, INVALID_CREDENTIALS / DECRYPTION_FAILED errors,
    no try/catch around JSON.parse or the base64 decoding.

The embedding models:
  * the byte/base64 codec (`bufferToBase64` / `base64ToBuffer`) concretely over
    `List Nat` bytes and `List Char` text, mirroring the source loops over
    `String.fromCharCode`/`btoa` and `atob`/`charCodeAt`;
  * the WebCrypto primitives (PBKDF2 key derivation, SHA-256 of the exported key,
    AES-GCM seal/open) as a `CryptoModel` structure whose fields carry the standard
    guarantees the source relies on (deterministic injective derivation,
    collision-free key hash, AEAD round-trip, AEAD rejection of tampered bytes);
  * the vault artifact as a record of optional fields, mirroring the schemaless
    JSON object the source reads back with `JSON.parse`;
  * the reducer `appReducer` from `src/lib/store.ts` directly.
-/

/- ## Base64 codec (HeraVault.bufferToBase64 / base64ToBuffer)

The source builds a binary string with `String.fromCharCode` over the bytes and
feeds it to `btoa`; decoding applies `atob` and reads bytes back with
`charCodeAt`. The composition is exactly standard base64 over the byte
sequence, which is what is modelled here. -/

/-- The 64-character base64 alphabet, index 0 = 'A' … index 63 = '/'. -/
def b64Alphabet : List Char :=
  ['A', 'B', 'C', 'D', 'E', 'F', 'G', 'H', 'I', 'J', 'K', 'L', 'M',
   'N', 'O', 'P', 'Q', 'R', 'S', 'T', 'U', 'V', 'W', 'X', 'Y', 'Z',
   'a', 'b', 'c', 'd', 'e', 'f', 'g', 'h', 'i', 'j', 'k', 'l', 'm',
   'n', 'o', 'p', 'q', 'r', 's', 't', 'u', 'v', 'w', 'x', 'y', 'z',
   '0', '1', '2', '3', '4', '5', '6', '7', '8', '9', '+', '/']

/-- Character for a 6-bit value. -/
def b64Char (n : Nat) : Char := b64Alphabet.getD n 'A'

/-- Index of a character in the base64 alphabet; 64 when the character is not a
base64 digit (in `atob`, such input throws). -/
def b64Index (c : Char) : Nat := b64Alphabet.indexOf c

/-- Encode a byte sequence in base64, three bytes to four characters, padding
the final group with '=' exactly as `btoa` does. -/
def b64EncodeBytes : List Nat → List Char
  | a :: b :: c :: rest =>
      b64Char (a / 4) :: b64Char (a % 4 * 16 + b / 16) ::
      b64Char (b % 16 * 4 + c / 64) :: b64Char (c % 64) :: b64EncodeBytes rest
  | [a, b] => [b64Char (a / 4), b64Char (a % 4 * 16 + b / 16), b64Char (b % 16 * 4), '=']
  | [a] => [b64Char (a / 4), b64Char (a % 4 * 16), '=', '=']
  | [] => []

/-- Decode base64 text to bytes; `none` models the exception `atob` throws on
text that is not well-formed padded base64. -/
def b64DecodeChars : List Char → Option (List Nat)
  | [] => some []
  | c1 :: c2 :: c3 :: c4 :: rest =>
      if b64Index c1 < 64 then
        if b64Index c2 < 64 then
          if c3 = '=' then
            if c4 = '=' ∧ rest = [] then
              some [b64Index c1 * 4 + b64Index c2 / 16]
            else none
          else
            if b64Index c3 < 64 then
              if c4 = '=' then
                if rest = [] then
                  some [b64Index c1 * 4 + b64Index c2 / 16,
                        b64Index c2 % 16 * 16 + b64Index c3 / 4]
                else none
              else
                if b64Index c4 < 64 then
                  (b64DecodeChars rest).map
                    (fun tail =>
                      (b64Index c1 * 4 + b64Index c2 / 16) ::
                      (b64Index c2 % 16 * 16 + b64Index c3 / 4) ::
                      (b64Index c3 % 4 * 64 + b64Index c4) :: tail)
                else none
            else none
        else none
      else none
  | _ => none

/-- HeraVault.bufferToBase64: bytes to base64 text. -/
def bufferToBase64 (bytes : List Nat) : String := ⟨b64EncodeBytes bytes⟩

/-- HeraVault.base64ToBuffer: base64 text back to bytes; `none` models the
`atob` exception on malformed input. -/
def base64ToBuffer (s : String) : Option (List Nat) := b64DecodeChars s.data

/-- Each 6-bit value decodes back to itself. -/
theorem b64Index_b64Char : ∀ n, n < 64 → b64Index (b64Char n) = n := by decide

/-- Base64 digits are never the padding character. -/
theorem b64Char_ne_pad : ∀ n, n < 64 → b64Char n ≠ '=' := by decide

/-- Decoding an encoded byte sequence recovers the bytes: the codec used for
salt, nonce and ciphertext fields is lossless on genuine bytes. -/
theorem b64DecodeChars_b64EncodeBytes :
    ∀ bytes : List Nat, (∀ x ∈ bytes, x < 256) →
      b64DecodeChars (b64EncodeBytes bytes) = some bytes := by
  intro bytes
  induction bytes using b64EncodeBytes.induct with
  | case1 a b c rest ih =>
    intro hb
    have ha : a < 256 := hb a (by simp)
    have hbb : b < 256 := hb b (by simp)
    have hc : c < 256 := hb c (by simp)
    have h1 : a / 4 < 64 := by omega
    have h2 : a % 4 * 16 + b / 16 < 64 := by omega
    have h3 : b % 16 * 4 + c / 64 < 64 := by omega
    have h4 : c % 64 < 64 := by omega
    have htail : b64DecodeChars (b64EncodeBytes rest) = some rest :=
      ih (fun x hx => hb x (by simp [hx]))
    simp [b64EncodeBytes, b64DecodeChars,
      b64Index_b64Char _ h1, b64Index_b64Char _ h2,
      b64Index_b64Char _ h3, b64Index_b64Char _ h4,
      b64Char_ne_pad _ h3, b64Char_ne_pad _ h4, h1, h2, h3, h4, htail]
    omega
  | case2 a b =>
    intro hb
    have ha : a < 256 := hb a (by simp)
    have hbb : b < 256 := hb b (by simp)
    have h1 : a / 4 < 64 := by omega
    have h2 : a % 4 * 16 + b / 16 < 64 := by omega
    have h3 : b % 16 * 4 < 64 := by omega
    simp [b64EncodeBytes, b64DecodeChars,
      b64Index_b64Char _ h1, b64Index_b64Char _ h2, b64Index_b64Char _ h3,
      b64Char_ne_pad _ h3, h1, h2, h3]
    omega
  | case3 a =>
    intro hb
    have ha : a < 256 := hb a (by simp)
    have h1 : a / 4 < 64 := by omega
    have h2 : a % 4 * 16 < 64 := by omega
    simp [b64EncodeBytes, b64DecodeChars,
      b64Index_b64Char _ h1, b64Index_b64Char _ h2, h1, h2]
    omega
  | case4 =>
    intro _
    simp [b64EncodeBytes, b64DecodeChars]

/- ## Injective encodings into Nat

The concrete witness instantiation of the cryptographic primitives needs an
injective, computably invertible encoding of each variant's `AppState` into the
naturals. The helpers below pair `Nat.pair` with total decoders, so every
`decode (encode x) = x` law is by construction. -/

/-- Length-preserving encoding of a list of naturals into one natural. -/
def natListCode : List Nat → Nat
  | [] => 0
  | a :: t => Nat.pair a (natListCode t) + 1

/-- Total inverse of `natListCode`. -/
def natListDecode : Nat → List Nat
  | 0 => []
  | n + 1 => (Nat.unpair n).1 :: natListDecode (Nat.unpair n).2
decreasing_by exact Nat.lt_succ_of_le (Nat.unpair_right_le n)

theorem natListDecode_natListCode : ∀ l, natListDecode (natListCode l) = l
  | [] => by simp [natListCode, natListDecode]
  | a :: t => by
    have ih := natListDecode_natListCode t
    simp [natListCode, natListDecode, Nat.unpair_pair, ih]

/-- Encoding of a string through its character codes. -/
def strCode (s : String) : Nat := natListCode (s.data.map Char.toNat)

/-- Total inverse of `strCode`. -/
def strDecode (n : Nat) : String := ⟨(natListDecode n).map Char.ofNat⟩

theorem strDecode_strCode (s : String) : strDecode (strCode s) = s := by
  simp only [strCode, strDecode, natListDecode_natListCode, List.map_map]
  rw [show Char.ofNat ∘ Char.toNat = id from funext Char.ofNat_toNat, List.map_id]

def boolCode : Bool → Nat
  | false => 0
  | true => 1

def boolDecode : Nat → Bool
  | 0 => false
  | _ + 1 => true

theorem boolDecode_boolCode (b : Bool) : boolDecode (boolCode b) = b := by
  cases b <;> rfl

def intCode : Int → Nat
  | .ofNat n => 2 * n
  | .negSucc n => 2 * n + 1

def intDecode (n : Nat) : Int :=
  if n % 2 = 0 then .ofNat (n / 2) else .negSucc (n / 2)

theorem intDecode_intCode (i : Int) : intDecode (intCode i) = i := by
  cases i with
  | ofNat n =>
    have h1 : 2 * n % 2 = 0 := by omega
    have h2 : 2 * n / 2 = n := by omega
    simp [intCode, intDecode, h1, h2]
  | negSucc n =>
    have h1 : ¬((2 * n + 1) % 2 = 0) := by omega
    have h2 : (2 * n + 1) / 2 = n := by omega
    simp [intCode, intDecode, h1, h2]

def optCode (f : α → Nat) : Option α → Nat
  | none => 0
  | some a => f a + 1

def optDecode (g : Nat → α) : Nat → Option α
  | 0 => none
  | n + 1 => some (g n)

theorem optDecode_optCode (f : α → Nat) (g : Nat → α) (h : ∀ a, g (f a) = a) :
    ∀ o, optDecode g (optCode f o) = o
  | none => rfl
  | some a => by simp [optCode, optDecode, h]

def listCodeWith (f : α → Nat) (l : List α) : Nat := natListCode (l.map f)

def listDecodeWith (g : Nat → α) (n : Nat) : List α := (natListDecode n).map g

theorem listDecodeWith_listCodeWith (f : α → Nat) (g : Nat → α) (h : ∀ a, g (f a) = a)
    (l : List α) : listDecodeWith g (listCodeWith f l) = l := by
  simp only [listCodeWith, listDecodeWith, natListDecode_natListCode, List.map_map]
  rw [show g ∘ f = id from funext h, List.map_id]

/- ## Shared domain enumerations

These string-literal union types are declared identically in `src/lib/types.ts`,
part_004 (v96) and part_005 (v98); they are modelled once here. -/

namespace Hera

/-- Theme = 'blush' | 'serenity' | 'nature'. -/
inductive Theme
  | blush
  | serenity
  | nature
deriving DecidableEq

def Theme.toNat : Theme → Nat
  | .blush => 0
  | .serenity => 1
  | .nature => 2

def Theme.fromNat : Nat → Theme
  | 0 => .blush
  | 1 => .serenity
  | _ => .nature

theorem themeFromNat_toNat (x : Theme) : Theme.fromNat x.toNat = x := by
  cases x <;> rfl

/-- Unit = 'C' | 'F'. -/
inductive Unit
  | C
  | F
deriving DecidableEq

def Unit.toNat : Unit → Nat
  | .C => 0
  | .F => 1

def Unit.fromNat : Nat → Unit
  | 0 => .C
  | _ => .F

theorem unitFromNat_toNat (x : Unit) : Unit.fromNat x.toNat = x := by
  cases x <;> rfl

/-- Language = 'en' | 'es' | 'fr'. -/
inductive Language
  | en
  | es
  | fr
deriving DecidableEq

def Language.toNat : Language → Nat
  | .en => 0
  | .es => 1
  | .fr => 2

def Language.fromNat : Nat → Language
  | 0 => .en
  | 1 => .es
  | _ => .fr

theorem languageFromNat_toNat (x : Language) : Language.fromNat x.toNat = x := by
  cases x <;> rfl

/-- FlowIntensity = 'none' | 'spotting' | 'light' | 'medium' | 'heavy'. -/
inductive FlowIntensity
  | none
  | spotting
  | light
  | medium
  | heavy
deriving DecidableEq

def FlowIntensity.toNat : FlowIntensity → Nat
  | .none => 0
  | .spotting => 1
  | .light => 2
  | .medium => 3
  | .heavy => 4

def FlowIntensity.fromNat : Nat → FlowIntensity
  | 0 => .none
  | 1 => .spotting
  | 2 => .light
  | 3 => .medium
  | _ => .heavy

theorem flowFromNat_toNat (x : FlowIntensity) : FlowIntensity.fromNat x.toNat = x := by
  cases x <;> rfl

/-- MucusType = 'none' | 'dry' | 'sticky' | 'creamy' | 'eggwhite' | 'watery'. -/
inductive MucusType
  | none
  | dry
  | sticky
  | creamy
  | eggwhite
  | watery
deriving DecidableEq

def MucusType.toNat : MucusType → Nat
  | .none => 0
  | .dry => 1
  | .sticky => 2
  | .creamy => 3
  | .eggwhite => 4
  | .watery => 5

def MucusType.fromNat : Nat → MucusType
  | 0 => .none
  | 1 => .dry
  | 2 => .sticky
  | 3 => .creamy
  | 4 => .eggwhite
  | _ => .watery

theorem mucusFromNat_toNat (x : MucusType) : MucusType.fromNat x.toNat = x := by
  cases x <;> rfl

/-- CervixPosition = 'low_hard' | 'med_firm' | 'high_soft' (types.ts only). -/
inductive CervixPosition
  | low_hard
  | med_firm
  | high_soft
deriving DecidableEq

def CervixPosition.toNat : CervixPosition → Nat
  | .low_hard => 0
  | .med_firm => 1
  | .high_soft => 2

def CervixPosition.fromNat : Nat → CervixPosition
  | 0 => .low_hard
  | 1 => .med_firm
  | _ => .high_soft

theorem cervixFromNat_toNat (x : CervixPosition) : CervixPosition.fromNat x.toNat = x := by
  cases x <;> rfl

/-- LHResult = 'negative' | 'faint' | 'equal' | 'peak' (types.ts only). -/
inductive LHResult
  | negative
  | faint
  | equal
  | peak
deriving DecidableEq

def LHResult.toNat : LHResult → Nat
  | .negative => 0
  | .faint => 1
  | .equal => 2
  | .peak => 3

def LHResult.fromNat : Nat → LHResult
  | 0 => .negative
  | 1 => .faint
  | 2 => .equal
  | _ => .peak

theorem lhFromNat_toNat (x : LHResult) : LHResult.fromNat x.toNat = x := by
  cases x <;> rfl

/-- aiProvider = 'openai' | 'gemini' | 'unknown' (v96/v98 profiles). -/
inductive AiProvider
  | openai
  | gemini
  | unknown
deriving DecidableEq

def AiProvider.toNat : AiProvider → Nat
  | .openai => 0
  | .gemini => 1
  | .unknown => 2

def AiProvider.fromNat : Nat → AiProvider
  | 0 => .openai
  | 1 => .gemini
  | _ => .unknown

theorem aiProviderFromNat_toNat (x : AiProvider) : AiProvider.fromNat x.toNat = x := by
  cases x <;> rfl

end Hera

/- ## Cryptographic primitives

`deriveKey` (PBKDF2-SHA256, 600000 iterations), the SHA-256 hash of the
exported key, and AES-GCM encrypt/decrypt are WebCrypto platform primitives,
not repository code. They are modelled as an abstract structure whose law
fields state exactly the guarantees the vault code relies on:

  * `deriveKey` is a pure function of (password, salt) — determinism — and,
    idealised, distinct passwords give distinct keys for a fixed salt;
  * the key hash is collision-free (idealised SHA-256);
  * AES-GCM decryption inverts encryption under the same key and IV;
  * AES-GCM is authenticated: a ciphertext differing from a genuine one in a
    single byte is rejected rather than decrypted to garbage.

Plaintext bytes are identified with the payload value they serialise
(`JSON.stringify`/`TextEncoder` on the way in, `TextDecoder`/`JSON.parse` on
the way out — a platform bijection the vault code composes with the cipher). -/

/-- `c` differs from `g` in exactly one byte position (same length, one
changed byte). -/
def OneByteDiff (c g : List Nat) : Prop :=
  ∃ pre b b' suf, g = pre ++ b :: suf ∧ c = pre ++ b' :: suf ∧
    b ≠ b' ∧ b < 256 ∧ b' < 256

/-- Abstract WebCrypto primitives over payload type `α`, with the standard
guarantees assumed by the vault code. -/
structure CryptoModel (α : Type) where
  Key : Type
  deriveKey : String → List Nat → Key
  keyHash : Key → List Nat
  encrypt : Key → List Nat → α → List Nat
  decrypt : Key → List Nat → List Nat → Option α
  deriveKey_inj : ∀ salt p₁ p₂, deriveKey p₁ salt = deriveKey p₂ salt → p₁ = p₂
  keyHash_inj : ∀ k₁ k₂, keyHash k₁ = keyHash k₂ → k₁ = k₂
  decrypt_encrypt : ∀ k iv s, decrypt k iv (encrypt k iv s) = some s
  decrypt_tampered : ∀ k iv s c, OneByteDiff c (encrypt k iv s) → decrypt k iv c = none

/- ## Vault artifact and inputs

The persisted artifact is a JSON object; `unlock` reads it back field by
field after `JSON.parse`, so it is modelled as a record of optional fields.
A binary field is stored as base64 text; since the codec is proved lossless
(`b64DecodeChars_b64EncodeBytes`), fields are carried here as byte lists,
with `none` standing for a field that is absent (or not decodable base64 —
both throw at the same `base64ToBuffer` call in the source). -/

/-- A parsed vault artifact: the JSON object's optional fields. -/
structure VaultRecord where
  salt : Option (List Nat)
  iv : Option (List Nat)
  authHash : Option (List Nat)
  data : Option (List Nat)
  version : Option String
  timestamp : Option Nat
deriving DecidableEq

/-- Result of `JSON.parse` on the string handed to unlock: either the parse
throws, or it yields an object with the given fields. -/
inductive JsonInput
  | malformed
  | parsed (v : VaultRecord)
deriving DecidableEq

/-- Every way a vault operation can fail, one constructor per distinct
throw site in the source. -/
inductive VaultError
  | invalidPasswordLock
  | passwordRequired
  | invalidCredentials
  | decryptionFailed
  | invalidPassword
  | corruptVault
  | accessDenied
  | parseException
  | base64Exception
deriving DecidableEq

/- ## Variant 1: src/lib/HeraVault.ts ("v1.0-forensic")

`lock` draws fresh salt/iv (modelled as explicit arguments, the caller's
CSPRNG), encrypts, and writes the artifact under the fixed key
HERA_VAULT_CORE; it performs no password validation and computes no auth
hash. `unlock` reads the stored item: a missing item returns null; any
failure inside the try block becomes ACCESS_DENIED. -/

namespace HeraVault

/-- The artifact object `lock` serialises into localStorage. -/
def lockArtifact (C : CryptoModel α) (salt iv : List Nat) (now : Nat)
    (data : α) (password : String) : VaultRecord :=
  { salt := some salt
    iv := some iv
    authHash := none
    data := some (C.encrypt (C.deriveKey password salt) iv data)
    version := some "v1.0-forensic"
    timestamp := some now }

/-- Contents of localStorage HERA_VAULT_CORE after `lock` (the JSON
stringify/parse round trip on the artifact object is the identity). -/
def lock (C : CryptoModel α) (salt iv : List Nat) (now : Nat)
    (data : α) (password : String) : Option JsonInput :=
  some (.parsed (lockArtifact C salt iv now data password))

/-- HeraVault.unlock: `stored` is the result of getItem (none = no item)
followed by JSON.parse. -/
def unlock (C : CryptoModel α) (stored : Option JsonInput) (password : String) :
    Except VaultError (Option α) :=
  match stored with
  | none => .ok none
  | some .malformed => .error .accessDenied
  | some (.parsed v) =>
    match v.salt, v.iv, v.data with
    | some salt, some iv, some data =>
      match C.decrypt (C.deriveKey password salt) iv data with
      | some st => .ok (some st)
      | none => .error .accessDenied
    | _, _, _ => .error .accessDenied

end HeraVault

/- ## Variant 2: part_004 class HeraVault ("v96-forensic")

`lock` throws "Password Required" on a falsy password, then encrypts and
stores a SHA-256 hash of the exported key alongside the ciphertext.
`unlock` runs entirely inside a try/catch: the auth-hash mismatch throws
INVALID_PASSWORD (re-thrown as-is), and every other failure — malformed
JSON, missing fields, failed decryption — is mapped to CORRUPT_VAULT. -/

namespace V96

/-- The artifact JSON object produced by the v96 lock. -/
def lockArtifact (C : CryptoModel α) (salt iv : List Nat)
    (data : α) (password : String) : VaultRecord :=
  { salt := some salt
    iv := some iv
    authHash := some (C.keyHash (C.deriveKey password salt))
    data := some (C.encrypt (C.deriveKey password salt) iv data)
    version := some "v96-forensic"
    timestamp := none }

/-- HeraVault.lock (v96). -/
def lock (C : CryptoModel α) (salt iv : List Nat) (data : α) (password : String) :
    Except VaultError VaultRecord :=
  if password = "" then .error .passwordRequired
  else .ok (lockArtifact C salt iv data password)

/-- HeraVault.unlock (v96). -/
def unlock (C : CryptoModel α) (input : JsonInput) (password : String) :
    Except VaultError α :=
  match input with
  | .malformed => .error .corruptVault
  | .parsed v =>
    match v.salt, v.iv, v.data with
    | some salt, some iv, some data =>
      let key := C.deriveKey password salt
      if v.authHash = some (C.keyHash key) then
        match C.decrypt key iv data with
        | some st => .ok st
        | none => .error .corruptVault
      else .error .invalidPassword
    | _, _, _ => .error .corruptVault

end V96

/- ## Variant 3: part_005 class HeraSecurity ("v98-gold")

`lock` rejects an empty or whitespace-only password ("Invalid Password"),
then derives the key, hashes the exported key, encrypts, and returns the
artifact string. `unlock` parses and decodes WITHOUT a surrounding
try/catch (a JSON.parse or atob failure escapes as a raw exception),
compares the auth hash — mismatch throws INVALID_CREDENTIALS — and only
wraps the decrypt call, whose failure throws DECRYPTION_FAILED. -/

namespace HeraSecurity

/-- The artifact JSON object produced by the v98 lock. -/
def lockArtifact (C : CryptoModel α) (salt iv : List Nat)
    (data : α) (password : String) : VaultRecord :=
  { salt := some salt
    iv := some iv
    authHash := some (C.keyHash (C.deriveKey password salt))
    data := some (C.encrypt (C.deriveKey password salt) iv data)
    version := some "v98-gold"
    timestamp := none }

/-- HeraSecurity.lock. -/
def lock (C : CryptoModel α) (salt iv : List Nat) (data : α) (password : String) :
    Except VaultError VaultRecord :=
  if password = "" ∨ password.trim = "" then .error .invalidPasswordLock
  else .ok (lockArtifact C salt iv data password)

/-- HeraSecurity.unlock. -/
def unlock (C : CryptoModel α) (input : JsonInput) (password : String) :
    Except VaultError α :=
  match input with
  | .malformed => .error .parseException
  | .parsed v =>
    match v.salt, v.iv, v.data with
    | some salt, some iv, some data =>
      let key := C.deriveKey password salt
      if v.authHash = some (C.keyHash key) then
        match C.decrypt key iv data with
        | some st => .ok st
        | none => .error .decryptionFailed
      else .error .invalidCredentials
    | _, _, _ => .error .base64Exception

end HeraSecurity

/- ## src/lib/types.ts and src/lib/store.ts

The canonical application-state shape and the reducer. JS numbers holding
biometric readings are modelled as `Int`; `lastSynced` (epoch milliseconds
from Date.now()) as `Nat`. -/

namespace Store

/-- CycleDay (types.ts). -/
structure CycleDay where
  date : String
  temperature : Option Int
  mucus : Hera.MucusType
  flow : Hera.FlowIntensity
  cervix : Hera.CervixPosition
  lhTest : Hera.LHResult
  stressLevel : Int
  notes : String
deriving DecidableEq

/-- UserProfile (types.ts). -/
structure UserProfile where
  name : String
  theme : Hera.Theme
  unit : Hera.Unit
  lang : Hera.Language
deriving DecidableEq

/-- AppState (types.ts). -/
structure AppState where
  profile : UserProfile
  cycleData : List CycleDay
  lastSynced : Nat
  unsavedChanges : Bool
deriving DecidableEq

/-- Partial of UserProfile: each field present or absent, as in the
UPDATE_PROFILE payload; an absent field leaves the old value in place under
object spread. -/
structure PartialProfile where
  name : Option String
  theme : Option Hera.Theme
  unit : Option Hera.Unit
  lang : Option Hera.Language
deriving DecidableEq

/-- Action (store.ts). -/
inductive Action
  | loadState (payload : AppState)
  | updateProfile (payload : PartialProfile)
  | updateCycleDay (payload : CycleDay)
  | resetApp
  | markSaved
deriving DecidableEq

/-- DEFAULT_STATE (store.ts); `now` is the Date.now() value read at module
load. -/
def DEFAULT_STATE (now : Nat) : AppState :=
  { profile := { name := "Hera", theme := .blush, unit := .C, lang := .en }
    cycleData := []
    lastSynced := now
    unsavedChanges := false }

/-- appReducer (store.ts). `now` models the Date.now() calls (RESET_APP
returns the module-load DEFAULT_STATE, MARK_SAVED stamps the save time). -/
def appReducer (now : Nat) (state : AppState) (action : Action) : AppState :=
  match action with
  | .loadState payload => { payload with unsavedChanges := false }
  | .updateProfile payload =>
    { state with
      profile :=
        { name := payload.name.getD state.profile.name
          theme := payload.theme.getD state.profile.theme
          unit := payload.unit.getD state.profile.unit
          lang := payload.lang.getD state.profile.lang }
      unsavedChanges := true }
  | .updateCycleDay payload =>
    match state.cycleData.findIdx? (fun d => d.date == payload.date) with
    | some i =>
      { state with cycleData := state.cycleData.set i payload, unsavedChanges := true }
    | none =>
      { state with cycleData := state.cycleData ++ [payload], unsavedChanges := true }
  | .resetApp => DEFAULT_STATE now
  | .markSaved => { state with unsavedChanges := false, lastSynced := now }

end Store

/- ## part_004 (v96) domain types -/

namespace V96

/-- CycleDay as declared in part_004. -/
structure CycleDay where
  date : String
  temperature : Option Int
  mucus : Hera.MucusType
  flow : Hera.FlowIntensity
  notes : String
deriving DecidableEq

/-- UserProfile as declared in part_004 (apiKey and aiProvider optional). -/
structure UserProfile where
  name : String
  avatar : Option String
  theme : Hera.Theme
  unit : Hera.Unit
  lang : Hera.Language
  liabilityAccepted : Bool
  aiActive : Bool
  apiKey : Option String
  aiProvider : Option Hera.AiProvider
deriving DecidableEq

/-- AppState as declared in part_004. -/
structure AppState where
  profile : UserProfile
  cycleData : List CycleDay
  lastSynced : Nat
  unsavedChanges : Bool
deriving DecidableEq

end V96

/- ## part_005 (v98) domain types -/

namespace V98

/-- CycleDay as declared in part_005 (same fields as the v96 declaration). -/
structure CycleDay where
  date : String
  temperature : Option Int
  mucus : Hera.MucusType
  flow : Hera.FlowIntensity
  notes : String
deriving DecidableEq

/-- UserProfile as declared in part_005: the v96 profile plus the learned
cycle-length parameters. -/
structure UserProfile where
  name : String
  avatar : Option String
  theme : Hera.Theme
  unit : Hera.Unit
  lang : Hera.Language
  liabilityAccepted : Bool
  aiActive : Bool
  apiKey : Option String
  aiProvider : Option Hera.AiProvider
  avgCycleLength : Int
  avgLutealLength : Int
deriving DecidableEq

/-- AppState as declared in part_005. -/
structure AppState where
  profile : UserProfile
  cycleData : List CycleDay
  lastSynced : Nat
  unsavedChanges : Bool
deriving DecidableEq

/-- DEFAULT_STATE (part_005); `now` is the Date.now() value at module load. -/
def DEFAULT_STATE (now : Nat) : AppState :=
  { profile :=
    { name := "User"
      avatar := none
      theme := .blush
      unit := .C
      lang := .en
      liabilityAccepted := false
      aiActive := false
      apiKey := none
      aiProvider := some .unknown
      avgCycleLength := 28
      avgLutealLength := 14 }
    cycleData := []
    lastSynced := now
    unsavedChanges := false }

end V98

/- ## Concrete crypto-model instantiation

The claim theorems below are stated for every `CryptoModel`; the witness
theorems instantiate them at the following computable model, built from any
payload type with an invertible encoding into Nat. -/

theorem natListCode_inj (l₁ l₂ : List Nat) (h : natListCode l₁ = natListCode l₂) :
    l₁ = l₂ := by
  have := congrArg natListDecode h
  rwa [natListDecode_natListCode, natListDecode_natListCode] at this

theorem strCode_inj (s₁ s₂ : String) (h : strCode s₁ = strCode s₂) : s₁ = s₂ := by
  have := congrArg strDecode h
  rwa [strDecode_strCode, strDecode_strCode] at this

/-- Injective code of a (password, salt) pair, standing in for the derived
key bytes in the concrete model. -/
def keyCode (k : String × List Nat) : Nat := Nat.pair (strCode k.1) (natListCode k.2)

theorem keyCode_inj (k₁ k₂ : String × List Nat) (h : keyCode k₁ = keyCode k₂) :
    k₁ = k₂ := by
  obtain ⟨hp, hs⟩ := Nat.pair_eq_pair.mp h
  obtain ⟨p₁, s₁⟩ := k₁
  obtain ⟨p₂, s₂⟩ := k₂
  exact Prod.ext (strCode_inj _ _ hp) (natListCode_inj _ _ hs)

/-- Concrete cipher: the "ciphertext" carries the encoded payload, an exact
checksum binding key, IV and payload, and a trailing zero byte. -/
def cEncrypt (enc : α → Nat) (k : String × List Nat) (iv : List Nat) (s : α) :
    List Nat :=
  [enc s, keyCode k + iv.sum + enc s, 0]

/-- Concrete decryption: accept exactly the well-checksummed three-entry
lists. -/
def cDecrypt (dec : Nat → α) (k : String × List Nat) (iv : List Nat)
    (c : List Nat) : Option α :=
  match c with
  | [a, t, z] => if z = 0 ∧ t = keyCode k + iv.sum + a then some (dec a) else none
  | _ => none

theorem cDecrypt_cEncrypt (enc : α → Nat) (dec : Nat → α) (h : ∀ a, dec (enc a) = a)
    (k : String × List Nat) (iv : List Nat) (s : α) :
    cDecrypt dec k iv (cEncrypt enc k iv s) = some s := by
  simp [cEncrypt, cDecrypt, h]

theorem cDecrypt_tampered (enc : α → Nat) (dec : Nat → α) (k : String × List Nat)
    (iv : List Nat) (s : α) (c : List Nat)
    (hdiff : OneByteDiff c (cEncrypt enc k iv s)) :
    cDecrypt dec k iv c = none := by
  obtain ⟨pre, b, b', suf, hg, hc, hne, hb, hb'⟩ := hdiff
  rcases pre with _ | ⟨x, pre⟩
  · simp only [List.nil_append] at hg hc
    simp only [cEncrypt, List.cons.injEq] at hg
    obtain ⟨h1, h2⟩ := hg
    subst hc h2 h1
    simp only [cDecrypt]
    rw [if_neg]
    omega
  · rcases pre with _ | ⟨y, pre⟩
    · simp only [List.cons_append, List.nil_append] at hg hc
      simp only [cEncrypt, List.cons.injEq] at hg
      obtain ⟨h1, h2, h3⟩ := hg
      subst hc h1 h2 h3
      simp only [cDecrypt]
      rw [if_neg]
      omega
    · rcases pre with _ | ⟨z, pre⟩
      · simp only [List.cons_append, List.nil_append] at hg hc
        simp only [cEncrypt, List.cons.injEq] at hg
        obtain ⟨h1, h2, h3, h4⟩ := hg
        subst hc h1 h2 h3 h4
        simp only [cDecrypt]
        rw [if_neg]
        omega
      · exfalso
        simp only [cEncrypt, List.cons_append, List.cons.injEq] at hg
        obtain ⟨-, -, -, h4⟩ := hg
        exact List.cons_ne_nil b suf (List.append_eq_nil.mp h4.symm).2

/-- Build a computable `CryptoModel` from an invertible payload encoding. -/
def mkCryptoModel (enc : α → Nat) (dec : Nat → α) (h : ∀ a, dec (enc a) = a) :
    CryptoModel α where
  Key := String × List Nat
  deriveKey := fun p salt => (p, salt)
  keyHash := fun k => [keyCode k]
  encrypt := cEncrypt enc
  decrypt := cDecrypt dec
  deriveKey_inj := fun _ _ _ hp => congrArg Prod.fst hp
  keyHash_inj := by
    intro k₁ k₂ hk
    simp only [List.cons.injEq, and_true] at hk
    exact keyCode_inj _ _ hk
  decrypt_encrypt := fun k iv s => cDecrypt_cEncrypt enc dec h k iv s
  decrypt_tampered := fun k iv s c hd => cDecrypt_tampered enc dec k iv s c hd

/- ## Payload codecs for the three AppState variants -/

namespace Store

def cycleDayCode (d : CycleDay) : Nat :=
  Nat.pair (strCode d.date) (Nat.pair (optCode intCode d.temperature)
    (Nat.pair d.mucus.toNat (Nat.pair d.flow.toNat (Nat.pair d.cervix.toNat
      (Nat.pair d.lhTest.toNat (Nat.pair (intCode d.stressLevel) (strCode d.notes)))))))

def cycleDayDecode (n : Nat) : CycleDay :=
  let p1 := Nat.unpair n
  let p2 := Nat.unpair p1.2
  let p3 := Nat.unpair p2.2
  let p4 := Nat.unpair p3.2
  let p5 := Nat.unpair p4.2
  let p6 := Nat.unpair p5.2
  let p7 := Nat.unpair p6.2
  { date := strDecode p1.1
    temperature := optDecode intDecode p2.1
    mucus := Hera.MucusType.fromNat p3.1
    flow := Hera.FlowIntensity.fromNat p4.1
    cervix := Hera.CervixPosition.fromNat p5.1
    lhTest := Hera.LHResult.fromNat p6.1
    stressLevel := intDecode p7.1
    notes := strDecode p7.2 }

theorem store_cycleDayDecode_code (d : CycleDay) : cycleDayDecode (cycleDayCode d) = d := by
  cases d
  simp [cycleDayCode, cycleDayDecode, Nat.unpair_pair, strDecode_strCode,
    optDecode_optCode intCode intDecode intDecode_intCode, intDecode_intCode,
    Hera.mucusFromNat_toNat, Hera.flowFromNat_toNat,
    Hera.cervixFromNat_toNat, Hera.lhFromNat_toNat]

def profileCode (p : UserProfile) : Nat :=
  Nat.pair (strCode p.name) (Nat.pair p.theme.toNat
    (Nat.pair p.unit.toNat p.lang.toNat))

def profileDecode (n : Nat) : UserProfile :=
  let p1 := Nat.unpair n
  let p2 := Nat.unpair p1.2
  let p3 := Nat.unpair p2.2
  { name := strDecode p1.1
    theme := Hera.Theme.fromNat p2.1
    unit := Hera.Unit.fromNat p3.1
    lang := Hera.Language.fromNat p3.2 }

theorem store_profileDecode_code (p : UserProfile) : profileDecode (profileCode p) = p := by
  cases p
  simp [profileCode, profileDecode, Nat.unpair_pair, strDecode_strCode,
    Hera.themeFromNat_toNat, Hera.unitFromNat_toNat, Hera.languageFromNat_toNat]

def stateCode (s : AppState) : Nat :=
  Nat.pair (profileCode s.profile) (Nat.pair (listCodeWith cycleDayCode s.cycleData)
    (Nat.pair s.lastSynced (boolCode s.unsavedChanges)))

def stateDecode (n : Nat) : AppState :=
  let p1 := Nat.unpair n
  let p2 := Nat.unpair p1.2
  let p3 := Nat.unpair p2.2
  { profile := profileDecode p1.1
    cycleData := listDecodeWith cycleDayDecode p2.1
    lastSynced := p3.1
    unsavedChanges := boolDecode p3.2 }

theorem store_stateDecode_code (s : AppState) : stateDecode (stateCode s) = s := by
  cases s
  simp [stateCode, stateDecode, Nat.unpair_pair, store_profileDecode_code,
    listDecodeWith_listCodeWith cycleDayCode cycleDayDecode store_cycleDayDecode_code,
    boolDecode_boolCode]

/-- The concrete crypto model used by witness theorems over the types.ts
application state. -/
def cryptoModel : CryptoModel AppState :=
  mkCryptoModel stateCode stateDecode store_stateDecode_code

end Store

namespace V96

def cycleDayCode (d : CycleDay) : Nat :=
  Nat.pair (strCode d.date) (Nat.pair (optCode intCode d.temperature)
    (Nat.pair d.mucus.toNat (Nat.pair d.flow.toNat (strCode d.notes))))

def cycleDayDecode (n : Nat) : CycleDay :=
  let p1 := Nat.unpair n
  let p2 := Nat.unpair p1.2
  let p3 := Nat.unpair p2.2
  let p4 := Nat.unpair p3.2
  { date := strDecode p1.1
    temperature := optDecode intDecode p2.1
    mucus := Hera.MucusType.fromNat p3.1
    flow := Hera.FlowIntensity.fromNat p4.1
    notes := strDecode p4.2 }

theorem v96_cycleDayDecode_code (d : CycleDay) : cycleDayDecode (cycleDayCode d) = d := by
  cases d
  simp [cycleDayCode, cycleDayDecode, Nat.unpair_pair, strDecode_strCode,
    optDecode_optCode intCode intDecode intDecode_intCode,
    Hera.mucusFromNat_toNat, Hera.flowFromNat_toNat]

def profileCode (p : UserProfile) : Nat :=
  Nat.pair (strCode p.name) (Nat.pair (optCode strCode p.avatar)
    (Nat.pair p.theme.toNat (Nat.pair p.unit.toNat (Nat.pair p.lang.toNat
      (Nat.pair (boolCode p.liabilityAccepted) (Nat.pair (boolCode p.aiActive)
        (Nat.pair (optCode strCode p.apiKey)
          (optCode Hera.AiProvider.toNat p.aiProvider))))))))

def profileDecode (n : Nat) : UserProfile :=
  let p1 := Nat.unpair n
  let p2 := Nat.unpair p1.2
  let p3 := Nat.unpair p2.2
  let p4 := Nat.unpair p3.2
  let p5 := Nat.unpair p4.2
  let p6 := Nat.unpair p5.2
  let p7 := Nat.unpair p6.2
  let p8 := Nat.unpair p7.2
  { name := strDecode p1.1
    avatar := optDecode strDecode p2.1
    theme := Hera.Theme.fromNat p3.1
    unit := Hera.Unit.fromNat p4.1
    lang := Hera.Language.fromNat p5.1
    liabilityAccepted := boolDecode p6.1
    aiActive := boolDecode p7.1
    apiKey := optDecode strDecode p8.1
    aiProvider := optDecode Hera.AiProvider.fromNat p8.2 }

theorem v96_profileDecode_code (p : UserProfile) : profileDecode (profileCode p) = p := by
  cases p
  simp [profileCode, profileDecode, Nat.unpair_pair, strDecode_strCode,
    optDecode_optCode strCode strDecode strDecode_strCode,
    optDecode_optCode Hera.AiProvider.toNat Hera.AiProvider.fromNat
      Hera.aiProviderFromNat_toNat,
    boolDecode_boolCode, Hera.themeFromNat_toNat, Hera.unitFromNat_toNat,
    Hera.languageFromNat_toNat]

def stateCode (s : AppState) : Nat :=
  Nat.pair (profileCode s.profile) (Nat.pair (listCodeWith cycleDayCode s.cycleData)
    (Nat.pair s.lastSynced (boolCode s.unsavedChanges)))

def stateDecode (n : Nat) : AppState :=
  let p1 := Nat.unpair n
  let p2 := Nat.unpair p1.2
  let p3 := Nat.unpair p2.2
  { profile := profileDecode p1.1
    cycleData := listDecodeWith cycleDayDecode p2.1
    lastSynced := p3.1
    unsavedChanges := boolDecode p3.2 }

theorem v96_stateDecode_code (s : AppState) : stateDecode (stateCode s) = s := by
  cases s
  simp [stateCode, stateDecode, Nat.unpair_pair, v96_profileDecode_code,
    listDecodeWith_listCodeWith cycleDayCode cycleDayDecode v96_cycleDayDecode_code,
    boolDecode_boolCode]

/-- The concrete crypto model used by witness theorems over the v96
application state. -/
def cryptoModel : CryptoModel AppState :=
  mkCryptoModel stateCode stateDecode v96_stateDecode_code

end V96

namespace V98

def cycleDayCode (d : CycleDay) : Nat :=
  Nat.pair (strCode d.date) (Nat.pair (optCode intCode d.temperature)
    (Nat.pair d.mucus.toNat (Nat.pair d.flow.toNat (strCode d.notes))))

def cycleDayDecode (n : Nat) : CycleDay :=
  let p1 := Nat.unpair n
  let p2 := Nat.unpair p1.2
  let p3 := Nat.unpair p2.2
  let p4 := Nat.unpair p3.2
  { date := strDecode p1.1
    temperature := optDecode intDecode p2.1
    mucus := Hera.MucusType.fromNat p3.1
    flow := Hera.FlowIntensity.fromNat p4.1
    notes := strDecode p4.2 }

theorem v98_cycleDayDecode_code (d : CycleDay) : cycleDayDecode (cycleDayCode d) = d := by
  cases d
  simp [cycleDayCode, cycleDayDecode, Nat.unpair_pair, strDecode_strCode,
    optDecode_optCode intCode intDecode intDecode_intCode,
    Hera.mucusFromNat_toNat, Hera.flowFromNat_toNat]

def profileCode (p : UserProfile) : Nat :=
  Nat.pair (strCode p.name) (Nat.pair (optCode strCode p.avatar)
    (Nat.pair p.theme.toNat (Nat.pair p.unit.toNat (Nat.pair p.lang.toNat
      (Nat.pair (boolCode p.liabilityAccepted) (Nat.pair (boolCode p.aiActive)
        (Nat.pair (optCode strCode p.apiKey)
          (Nat.pair (optCode Hera.AiProvider.toNat p.aiProvider)
            (Nat.pair (intCode p.avgCycleLength) (intCode p.avgLutealLength))))))))))

def profileDecode (n : Nat) : UserProfile :=
  let p1 := Nat.unpair n
  let p2 := Nat.unpair p1.2
  let p3 := Nat.unpair p2.2
  let p4 := Nat.unpair p3.2
  let p5 := Nat.unpair p4.2
  let p6 := Nat.unpair p5.2
  let p7 := Nat.unpair p6.2
  let p8 := Nat.unpair p7.2
  let p9 := Nat.unpair p8.2
  let p10 := Nat.unpair p9.2
  { name := strDecode p1.1
    avatar := optDecode strDecode p2.1
    theme := Hera.Theme.fromNat p3.1
    unit := Hera.Unit.fromNat p4.1
    lang := Hera.Language.fromNat p5.1
    liabilityAccepted := boolDecode p6.1
    aiActive := boolDecode p7.1
    apiKey := optDecode strDecode p8.1
    aiProvider := optDecode Hera.AiProvider.fromNat p9.1
    avgCycleLength := intDecode p10.1
    avgLutealLength := intDecode p10.2 }

theorem v98_profileDecode_code (p : UserProfile) : profileDecode (profileCode p) = p := by
  cases p
  simp [profileCode, profileDecode, Nat.unpair_pair, strDecode_strCode,
    optDecode_optCode strCode strDecode strDecode_strCode,
    optDecode_optCode Hera.AiProvider.toNat Hera.AiProvider.fromNat
      Hera.aiProviderFromNat_toNat,
    boolDecode_boolCode, intDecode_intCode, Hera.themeFromNat_toNat,
    Hera.unitFromNat_toNat, Hera.languageFromNat_toNat]

def stateCode (s : AppState) : Nat :=
  Nat.pair (profileCode s.profile) (Nat.pair (listCodeWith cycleDayCode s.cycleData)
    (Nat.pair s.lastSynced (boolCode s.unsavedChanges)))

def stateDecode (n : Nat) : AppState :=
  let p1 := Nat.unpair n
  let p2 := Nat.unpair p1.2
  let p3 := Nat.unpair p2.2
  { profile := profileDecode p1.1
    cycleData := listDecodeWith cycleDayDecode p2.1
    lastSynced := p3.1
    unsavedChanges := boolDecode p3.2 }

theorem v98_stateDecode_code (s : AppState) : stateDecode (stateCode s) = s := by
  cases s
  simp [stateCode, stateDecode, Nat.unpair_pair, v98_profileDecode_code,
    listDecodeWith_listCodeWith cycleDayCode cycleDayDecode v98_cycleDayDecode_code,
    boolDecode_boolCode]

/-- The concrete crypto model used by witness theorems over the v98
application state. -/
def cryptoModel : CryptoModel AppState :=
  mkCryptoModel stateCode stateDecode v98_stateDecode_code

end V98

/-- DEFAULT_STATE (part_004); the v96 initial state. -/
def V96.DEFAULT_STATE (now : Nat) : V96.AppState :=
  { profile :=
    { name := "Hera"
      avatar := none
      theme := .blush
      unit := .C
      lang := .en
      liabilityAccepted := false
      aiActive := false
      apiKey := none
      aiProvider := some .unknown }
    cycleData := []
    lastSynced := now
    unsavedChanges := false }

/- ## Shared unlock facts for the v98 vault -/

/-- Opening a genuine v98 artifact with a different password fails the key
hash comparison with INVALID_CREDENTIALS (idealised injective derivation
and hash). -/
theorem HeraSecurity.unlock_lockArtifact_wrong (C : CryptoModel α)
    (salt iv : List Nat) (s : α) (p₁ p₂ : String) (hne : p₁ ≠ p₂) :
    HeraSecurity.unlock C (.parsed (HeraSecurity.lockArtifact C salt iv s p₁)) p₂ =
      .error .invalidCredentials := by
  have hcond : some (C.keyHash (C.deriveKey p₁ salt)) ≠
      some (C.keyHash (C.deriveKey p₂ salt)) := by
    intro h
    exact hne (C.deriveKey_inj salt p₁ p₂ (C.keyHash_inj _ _ (Option.some.inj h)))
  simp [HeraSecurity.unlock, HeraSecurity.lockArtifact, hcond]

/-- Opening a genuine v98 artifact with the password that sealed it returns
the sealed state. -/
theorem HeraSecurity.unlock_lockArtifact_correct (C : CryptoModel α)
    (salt iv : List Nat) (s : α) (p : String) :
    HeraSecurity.unlock C (.parsed (HeraSecurity.lockArtifact C salt iv s p)) p =
      .ok s := by
  simp [HeraSecurity.unlock, HeraSecurity.lockArtifact, C.decrypt_encrypt]

/- ## Claim theorems -/

/-- C1: for every journal state and every non-empty password, sealing with
HeraVault.lock and opening the stored artifact with the same password
returns the original state field-for-field (`.ok (some s)`), including when
cycleData is empty. Holds for any crypto primitives satisfying the AES-GCM
round-trip law. -/
theorem c1_vault_roundtrip (C : CryptoModel Store.AppState) (salt iv : List Nat)
    (now : Nat) (s : Store.AppState) (p : String) (_hp : p ≠ "") :
    HeraVault.unlock C (HeraVault.lock C salt iv now s p) p = .ok (some s) := by
  simp [HeraVault.lock, HeraVault.lockArtifact, HeraVault.unlock, C.decrypt_encrypt]

/-- Witness for C1 at a concrete state and password. -/
theorem c1_vault_roundtrip_witness :
    HeraVault.unlock Store.cryptoModel
      (HeraVault.lock Store.cryptoModel [1, 2] [3] 0 (Store.DEFAULT_STATE 0) "sesame123")
      "sesame123" = .ok (some (Store.DEFAULT_STATE 0)) :=
  c1_vault_roundtrip Store.cryptoModel [1, 2] [3] 0 (Store.DEFAULT_STATE 0)
    "sesame123" (by decide)

/-- C2: for distinct passwords, opening a v98 artifact sealed under one with
the other fails with INVALID_CREDENTIALS (the auth-hash comparison fires
before decryption) and never returns a state. -/
theorem c2_wrong_password_rejected (C : CryptoModel V98.AppState)
    (salt iv : List Nat) (s : V98.AppState) (p₁ p₂ : String) (hne : p₁ ≠ p₂) :
    HeraSecurity.unlock C (.parsed (HeraSecurity.lockArtifact C salt iv s p₁)) p₂ =
      .error .invalidCredentials :=
  HeraSecurity.unlock_lockArtifact_wrong C salt iv s p₁ p₂ hne

/-- Witness for C2 at concrete distinct passwords. -/
theorem c2_wrong_password_rejected_witness :
    HeraSecurity.unlock V98.cryptoModel
      (.parsed (HeraSecurity.lockArtifact V98.cryptoModel [0] [1] (V98.DEFAULT_STATE 0) "pw"))
      "wrong" = .error .invalidCredentials :=
  c2_wrong_password_rejected V98.cryptoModel [0] [1] (V98.DEFAULT_STATE 0) "pw" "wrong"
    (by decide)

/-- C3 counterexample: the claim fails on src/lib/HeraVault.ts — its lock
performs no password validation at all, so locking with the empty password
does not fail with any EmptyPassword error; the empty password reaches key
derivation and the cipher and produces an artifact that the empty password
then opens. -/
theorem c3_counterexample :
    HeraVault.unlock Store.cryptoModel
      (HeraVault.lock Store.cryptoModel [1] [2] 0 (Store.DEFAULT_STATE 0) "") "" =
      .ok (some (Store.DEFAULT_STATE 0)) := by
  simp [HeraVault.lock, HeraVault.lockArtifact, HeraVault.unlock,
    Store.cryptoModel.decrypt_encrypt]

/-- C3 amended: the hardened variants reject the empty password before any
key derivation — HeraSecurity.lock (v98) fails with its Invalid Password
error on any password that trims to empty, and the v96 lock fails with
Password Required on the empty password, both uniformly in the crypto
primitives — while the src/lib HeraVault.lock has no such check. -/
theorem c3_empty_password_rejected (C : CryptoModel V98.AppState)
    (C' : CryptoModel V96.AppState) (salt iv salt' iv' : List Nat)
    (s : V98.AppState) (s' : V96.AppState) (p : String)
    (hp : p = "" ∨ p.trim = "") :
    HeraSecurity.lock C salt iv s p = .error .invalidPasswordLock ∧
    V96.lock C' salt' iv' s' "" = .error .passwordRequired := by
  constructor
  · simp only [HeraSecurity.lock]
    rw [if_pos hp]
  · simp [V96.lock]

/-- Witness for the amended C3 at the empty password. -/
theorem c3_empty_password_rejected_witness :
    HeraSecurity.lock V98.cryptoModel [0] [1] (V98.DEFAULT_STATE 0) "" =
      .error .invalidPasswordLock ∧
    V96.lock V96.cryptoModel [0] [1] (V96.DEFAULT_STATE 0) "" =
      .error .passwordRequired :=
  c3_empty_password_rejected V98.cryptoModel V96.cryptoModel [0] [1] [0] [1]
    (V98.DEFAULT_STATE 0) (V96.DEFAULT_STATE 0) "" (Or.inl rfl)

/-- C4: for every v96 artifact and every single-byte modification of its
data (ciphertext) field, opening the modified artifact with the correct
password passes the auth-hash check but fails AES-GCM authentication, and
the catch block reports CORRUPT_VAULT — no corrupted plaintext is ever
returned. -/
theorem c4_tamper_detected (C : CryptoModel V96.AppState) (salt iv : List Nat)
    (s : V96.AppState) (p : String) (c : List Nat)
    (hdiff : OneByteDiff c (C.encrypt (C.deriveKey p salt) iv s)) :
    V96.unlock C
      (.parsed { V96.lockArtifact C salt iv s p with data := some c }) p =
      .error .corruptVault := by
  have hdec := C.decrypt_tampered (C.deriveKey p salt) iv s c hdiff
  simp [V96.unlock, V96.lockArtifact, hdec]

/-- Witness for C4: a concrete artifact whose trailing ciphertext byte 0 is
flipped to 7. -/
theorem c4_tamper_detected_witness :
    V96.unlock V96.cryptoModel
      (.parsed { V96.lockArtifact V96.cryptoModel [5] [6] (V96.DEFAULT_STATE 0) "pw" with
        data := some [V96.stateCode (V96.DEFAULT_STATE 0),
          keyCode ("pw", [5]) + List.sum [6] + V96.stateCode (V96.DEFAULT_STATE 0), 7] })
      "pw" = .error .corruptVault :=
  c4_tamper_detected V96.cryptoModel [5] [6] (V96.DEFAULT_STATE 0) "pw" _
    ⟨[V96.stateCode (V96.DEFAULT_STATE 0),
      keyCode ("pw", [5]) + List.sum [6] + V96.stateCode (V96.DEFAULT_STATE 0)],
      0, 7, [], rfl, rfl, by decide, by decide, by decide⟩

/-- C5 counterexample: the claim fails — unlock never consults the
artifact's version field, so an artifact declaring the unknown version
"vX-future" with otherwise-consistent fields opens successfully with the
correct password instead of failing fast with an UnsupportedFormat error. -/
theorem c5_counterexample :
    HeraSecurity.unlock V98.cryptoModel
      (.parsed { HeraSecurity.lockArtifact V98.cryptoModel [7] [8] (V98.DEFAULT_STATE 0) "pw"
        with version := some "vX-future" }) "pw" = .ok (V98.DEFAULT_STATE 0) := by
  simp [HeraSecurity.unlock, HeraSecurity.lockArtifact,
    V98.cryptoModel.decrypt_encrypt]

/-- C5 amended: no vault variant inspects formatVersion — the result of
every unlock is invariant under replacing the artifact's version field by
any other value, and no UnsupportedFormat failure path exists. -/
theorem c5_version_ignored (C : CryptoModel V98.AppState)
    (C' : CryptoModel V96.AppState) (C'' : CryptoModel Store.AppState)
    (v : VaultRecord) (ver ver' : Option String) (p : String) :
    (HeraSecurity.unlock C (.parsed { v with version := ver }) p =
      HeraSecurity.unlock C (.parsed { v with version := ver' }) p) ∧
    (V96.unlock C' (.parsed { v with version := ver }) p =
      V96.unlock C' (.parsed { v with version := ver' }) p) ∧
    (HeraVault.unlock C'' (some (.parsed { v with version := ver })) p =
      HeraVault.unlock C'' (some (.parsed { v with version := ver' })) p) := by
  obtain ⟨os, oi, oa, od, _, ot⟩ := v
  rcases os <;> rcases oi <;> rcases od <;> exact ⟨rfl, rfl, rfl⟩

/-- C6 counterexample: the claim fails — no MalformedArtifact error exists
in the code: on input that JSON.parse rejects, v98's HeraSecurity.unlock
has no surrounding try/catch, so the raw parse exception escapes (modelled
as parseException) instead of a MalformedArtifact failure. -/
theorem c6_counterexample :
    HeraSecurity.unlock V98.cryptoModel .malformed "pw" = .error .parseException := rfl

/-- C6 amended: on input that is not valid artifact JSON, the v96 unlock
fails with CORRUPT_VAULT — distinct from its INVALID_PASSWORD
authentication failure and not a crash — the src/lib unlock fails with the
same ACCESS_DENIED error it uses for authentication failures, and the v98
unlock propagates the raw parse exception; none of them produces a
MalformedArtifact error. -/
theorem c6_malformed_behaviour (C : CryptoModel V98.AppState)
    (C' : CryptoModel V96.AppState) (C'' : CryptoModel Store.AppState) (p : String) :
    HeraSecurity.unlock C .malformed p = .error .parseException ∧
    V96.unlock C' .malformed p = .error .corruptVault ∧
    HeraVault.unlock C'' (some .malformed) p = .error .accessDenied :=
  ⟨rfl, rfl, rfl⟩

/-- C7: UPDATE_CYCLE_DAY upserts — when the payload's date already occurs
in cycleData the matching entry is replaced in place and the length is
unchanged; when the date is new the entry is appended and the length grows
by exactly one. -/
theorem c7_update_cycle_day_upsert (now : Nat) (s : Store.AppState) (d : Store.CycleDay) :
    ((∃ e ∈ s.cycleData, e.date = d.date) →
      ∃ i, ∃ hi : i < s.cycleData.length,
        (s.cycleData.get ⟨i, hi⟩).date = d.date ∧
        (Store.appReducer now s (.updateCycleDay d)).cycleData = s.cycleData.set i d ∧
        (Store.appReducer now s (.updateCycleDay d)).cycleData.length =
          s.cycleData.length) ∧
    ((∀ e ∈ s.cycleData, e.date ≠ d.date) →
      (Store.appReducer now s (.updateCycleDay d)).cycleData = s.cycleData ++ [d] ∧
      (Store.appReducer now s (.updateCycleDay d)).cycleData.length =
        s.cycleData.length + 1) := by
  constructor
  · rintro ⟨e, he, hdate⟩
    have hfind : s.cycleData.findIdx? (fun x => x.date == d.date) =
        some (s.cycleData.findIdx (fun x => x.date == d.date)) :=
      List.findIdx?_eq_some_of_exists ⟨e, he, by simp [hdate]⟩
    obtain ⟨hlt, hp, -⟩ := List.findIdx?_eq_some_iff_getElem.mp hfind
    refine ⟨_, hlt, ?_, ?_, ?_⟩
    · simpa using hp
    · simp [Store.appReducer, hfind]
    · simp [Store.appReducer, hfind]
  · intro hall
    have hfind : s.cycleData.findIdx? (fun x => x.date == d.date) = none := by
      rw [List.findIdx?_eq_none_iff]
      intro x hx
      simpa using hall x hx
    constructor
    · simp [Store.appReducer, hfind]
    · simp [Store.appReducer, hfind]

/-- Sample logged day for the reducer witness. -/
def sampleDay : Store.CycleDay :=
  { date := "2024-01-05"
    temperature := some 365
    mucus := .dry
    flow := .light
    cervix := .low_hard
    lhTest := .negative
    stressLevel := 2
    notes := "" }

/-- The same day re-logged with a different temperature. -/
def sampleDayUpdated : Store.CycleDay := { sampleDay with temperature := some 370 }

/-- A state already containing sampleDay. -/
def sampleStoreState : Store.AppState :=
  { profile := { name := "Hera", theme := .blush, unit := .C, lang := .en }
    cycleData := [sampleDay]
    lastSynced := 0
    unsavedChanges := false }

/-- Witness for C7: re-logging an existing date replaces exactly the entry
carrying that date. -/
theorem c7_update_cycle_day_upsert_witness :
    ∃ i, ∃ hi : i < sampleStoreState.cycleData.length,
      (sampleStoreState.cycleData.get ⟨i, hi⟩).date = sampleDayUpdated.date ∧
      (Store.appReducer 0 sampleStoreState (.updateCycleDay sampleDayUpdated)).cycleData =
        sampleStoreState.cycleData.set i sampleDayUpdated ∧
      (Store.appReducer 0 sampleStoreState
          (.updateCycleDay sampleDayUpdated)).cycleData.length =
        sampleStoreState.cycleData.length :=
  (c7_update_cycle_day_upsert 0 sampleStoreState sampleDayUpdated).1
    ⟨sampleDay, by simp [sampleStoreState], rfl⟩

/-- C8: a failed open leaves the artifact usable — unlock performs no
writes in the source, and on the same v98 artifact a wrong password fails
with INVALID_CREDENTIALS while the correct password afterwards still
returns the original state. -/
theorem c8_failed_open_then_success (C : CryptoModel V98.AppState)
    (salt iv : List Nat) (s : V98.AppState) (p w : String) (hw : w ≠ p) :
    HeraSecurity.unlock C (.parsed (HeraSecurity.lockArtifact C salt iv s p)) w =
      .error .invalidCredentials ∧
    HeraSecurity.unlock C (.parsed (HeraSecurity.lockArtifact C salt iv s p)) p =
      .ok s :=
  ⟨HeraSecurity.unlock_lockArtifact_wrong C salt iv s p w (Ne.symm hw),
   HeraSecurity.unlock_lockArtifact_correct C salt iv s p⟩

/-- Witness for C8 at concrete passwords. -/
theorem c8_failed_open_then_success_witness :
    HeraSecurity.unlock V98.cryptoModel
      (.parsed (HeraSecurity.lockArtifact V98.cryptoModel [2] [3] (V98.DEFAULT_STATE 0) "pw"))
      "wrong" = .error .invalidCredentials ∧
    HeraSecurity.unlock V98.cryptoModel
      (.parsed (HeraSecurity.lockArtifact V98.cryptoModel [2] [3] (V98.DEFAULT_STATE 0) "pw"))
      "pw" = .ok (V98.DEFAULT_STATE 0) :=
  c8_failed_open_then_success V98.cryptoModel [2] [3] (V98.DEFAULT_STATE 0) "pw" "wrong"
    (by decide)

/-- C9: the binary/text codec round-trips — decoding the base64 encoding of
any byte sequence returns exactly those bytes, so salt, nonce and
ciphertext survive the artifact encoding unchanged. -/
theorem c9_base64_roundtrip (bytes : List Nat) (hb : ∀ x ∈ bytes, x < 256) :
    base64ToBuffer (bufferToBase64 bytes) = some bytes :=
  b64DecodeChars_b64EncodeBytes bytes hb

/-- Witness for C9 on a concrete byte sequence exercising all padding
shapes. -/
theorem c9_base64_roundtrip_witness :
    base64ToBuffer (bufferToBase64 [0, 127, 255, 1]) = some [0, 127, 255, 1] :=
  c9_base64_roundtrip [0, 127, 255, 1] (by decide)

/-- C10: when no artifact is stored under HERA_VAULT_CORE, HeraVault.unlock
returns null for every password — `.ok none`, neither an error nor a
state. -/
theorem c10_no_vault_returns_null (C : CryptoModel Store.AppState) (p : String) :
    HeraVault.unlock C none p = .ok none := rfl
